import Mathlib

/-!
Verification of the PolyPress 3D viewer core (src/components/ThreeViewer.tsx)
against its natural-language specification.  The definitions below are a
shallow embedding of the viewer's load / normalize / metadata / camera /
animation / export logic; theorems settle the frozen claims about it.
-/

namespace PolyPress

/-! ## Format detection and the load pipeline (loadModel, handleError) -/

/-- The six supported file extensions, lowercase, as listed in the switch of
loadModel and in types.ts (SupportedExtension). -/
def supportedExtensions : List String :=
  ["glb", "gltf", "obj", "ply", "pcd", "xyz"]

/-- JavaScript String.prototype.toLowerCase, which loadModel applies to the
raw extension (ASCII case mapping). -/
def toLowerStr (s : String) : String := String.mk (s.data.map Char.toLower)

/-- JavaScript String.prototype.toUpperCase, used for the decoding status
message (ASCII case mapping). -/
def toUpperStr (s : String) : String := String.mk (s.data.map Char.toUpper)

/-- Observable events of one run of loadModel, in order: status strings sent to
the onLoadingStatus sink, the fetch of the byte buffer (fetch + arrayBuffer),
a format-specific parse attempt, and the installation of a SceneObject
(setModel inside processResult). -/
inductive LoadEvent where
  | status (s : String)
  | fetchBytes
  | parseAttempt (fmt : String)
  | installModel
  deriving DecidableEq, Repr

/-- The string handleError sends to the status sink for an error whose message
is msg (none models a missing message field; the JS expression
err.message || means an empty message also falls back). -/
def handleErrorStatus (msg : Option String) : String :=
  "Error: " ++
    (match msg with
      | some m => if m = "" then "Parsing failed" else m
      | none => "Parsing failed")

/-- Outcome of the format-specific parser on the fetched buffer. -/
inductive ParseOutcome where
  | success
  | failure (msg : Option String)
  deriving DecidableEq, Repr

/-- The event trace of loadModel for a given raw extension: it lowercases the
extension, emits the fetching status, fetches the byte buffer, emits the
decoding status, and only then switches on the extension; an unsupported
extension reaches the default branch, which reports an error through
handleError and never parses or installs anything. -/
def loadModelTrace (extension : String) (outcome : ParseOutcome) : List LoadEvent :=
  let ext := toLowerStr extension
  [LoadEvent.status "Fetching data stream...",
   LoadEvent.fetchBytes,
   LoadEvent.status ("Decoding " ++ toUpperStr ext ++ " payloads...")] ++
  (if ext ∈ supportedExtensions then
    match outcome with
    | ParseOutcome.success => [LoadEvent.parseAttempt ext, LoadEvent.installModel]
    | ParseOutcome.failure m => [LoadEvent.parseAttempt ext, LoadEvent.status (handleErrorStatus m)]
  else
    [LoadEvent.status (handleErrorStatus (some ("Unsupported format: " ++ ext)))])

/-- Is this event the fetch of the byte buffer? -/
def isFetch : LoadEvent → Bool
  | LoadEvent.fetchBytes => true
  | _ => false

/-- Is this event an error report on the status sink (handleError output)? -/
def isErrorStatus : LoadEvent → Bool
  | LoadEvent.status s => "Error: ".toList.isPrefixOf s.toList
  | _ => false

/-- The events loadModel emits strictly before its first error report. -/
def eventsBeforeError (tr : List LoadEvent) : List LoadEvent :=
  tr.takeWhile (fun e => !isErrorStatus e)

/-! ## Normalization of bare geometries (processResult, xyz and ply branch) -/

/-- A parsed buffer geometry, reduced to the fields processResult reads: the
element count of the position attribute (none when the attribute is absent),
the element count of the triangle-index buffer (none when there is no index
buffer), and whether a per-vertex color attribute is present. -/
structure Geometry where
  position : Option Nat
  index : Option Nat
  hasColor : Bool
  deriving DecidableEq, Repr

/-- The point-cloud test of the ply branch: no index buffer, or an index
buffer whose count is zero. -/
def plyHasEmptyIndex (geom : Geometry) : Bool :=
  match geom.index with
  | none => true
  | some n => n == 0

/-- The node processResult wraps a bare geometry in: either a Points node with
a freshly built points material, or a Mesh node with a freshly built standard
material. -/
inductive NormalizedNode where
  | pointsObj (geom : Geometry) (size : ℚ) (vertexColors : Bool) (sizeAttenuation : Bool)
  | meshObj (geom : Geometry) (color : Nat) (roughness : ℚ) (metalness : ℚ)
  deriving DecidableEq, Repr

/-- The xyz and ply branch of processResult: xyz is always a point cloud; ply
is a point cloud exactly when its index buffer is absent or empty, else a mesh
with the default gray standard material (color 0x808080, roughness 0.5,
metalness 0.5). -/
def normalizeGeometry (ext : String) (pointSize : ℚ) (geom : Geometry) : NormalizedNode :=
  let isPointCloud := ext == "xyz" || (ext == "ply" && plyHasEmptyIndex geom)
  if isPointCloud then
    NormalizedNode.pointsObj geom pointSize geom.hasColor true
  else
    NormalizedNode.meshObj geom 0x808080 (1 / 2) (1 / 2)

/-! ## Animation switching (the activeAnimationIndex effect) -/

/-- State of the animation machinery: whether a mixer exists, the clip list of
the current asset (clips identified by a number), and the clip whose action is
currently the active one (none before any action started). -/
structure AnimState where
  hasMixer : Bool
  clips : List Nat
  active : Option Nat
  deriving DecidableEq, Repr

/-- Operations the effect performs on animation actions. -/
inductive AnimEvent where
  | fadeOut (clip : Nat) (dur : ℚ)
  | reset (clip : Nat)
  | fadeIn (clip : Nat) (dur : ℚ)
  | play (clip : Nat)
  deriving DecidableEq, Repr

/-- JavaScript array indexing clips[i]: none when i is negative or at least
the length. -/
def jsIndex (l : List Nat) (i : ℤ) : Option Nat :=
  if i < 0 then none else l.get? i.toNat

/-- The effect that runs when settings.activeAnimationIndex changes: bail out
when there is no mixer or no clips; otherwise fade the previous action out
over 0.3, pick clips[i] falling back to clips[0], and if that clip exists,
reset its action, fade it in over 0.3 and play it. -/
def switchAnimation (st : AnimState) (i : ℤ) : AnimState × List AnimEvent :=
  if st.hasMixer = false ∨ st.clips = [] then (st, [])
  else
    let fadeOutEvents :=
      match st.active with
      | some a => [AnimEvent.fadeOut a (3 / 10)]
      | none => []
    match jsIndex st.clips i with
    | some c =>
        ({ st with active := some c },
          fadeOutEvents ++ [AnimEvent.reset c, AnimEvent.fadeIn c (3 / 10), AnimEvent.play c])
    | none =>
        match jsIndex st.clips 0 with
        | some c =>
            ({ st with active := some c },
              fadeOutEvents ++ [AnimEvent.reset c, AnimEvent.fadeIn c (3 / 10), AnimEvent.play c])
        | none => (st, fadeOutEvents)

/-! ## Metadata extraction (the object.traverse pass of processResult) -/

/-- A material as the metadata pass sees it: its identity (uuid) and the
fields the traversal reads.  Identities of materials produced by loaders are
Sum.inl values; identities of materials freshly constructed during the
traversal are Sum.inr values of a counter, so distinct constructions are
distinct identities. -/
structure Material where
  uuid : Nat ⊕ Nat
  color : Option Nat
  map : Option Nat
  normalMap : Option Nat
  roughnessMap : Option Nat
  metalnessMap : Option Nat
  emissiveMap : Option Nat
  roughness : ℚ
  metalness : ℚ
  deriving DecidableEq, Repr

/-- The node-kind tag the traversal switches on (isMesh / isPoints). -/
inductive NodeKind where
  | mesh
  | pointsNode
  | other
  deriving DecidableEq, Repr

/-- One visited node of the SceneObject, carrying exactly what the traversal
callback reads.  The attached material list models mesh.material: a singleton
for a single material, longer for a material array, empty for no material. -/
structure VNode where
  kind : NodeKind
  geom : Geometry
  mats : List Material
  skinned : Bool
  deriving DecidableEq, Repr

/-- A SceneObject, represented by the sequence of nodes its traverse visits
in depth-first order (the traversal logic of processResult reads each node
independently, so only this sequence matters). -/
abbrev SceneNodes : Type := List VNode

/-- The mutable accumulators of the traversal: vertex count, the running
floating triangle sum (exact rational here), mesh/points instance count, the
sets of seen material and texture identities, and the counter that makes
freshly constructed material identities unique. -/
structure MetaState where
  vertices : Nat
  triangles : ℚ
  meshes : Nat
  matIds : Finset (Nat ⊕ Nat)
  texIds : Finset Nat
  fresh : Nat

/-- Is the extension one of the two interchange formats (glb / gltf), whose
materials the traversal leaves untouched? -/
def isInterchange (ext : String) : Bool :=
  ext == "glb" || ext == "gltf"

/-- The replacement material the traversal builds for a mesh of a
non-interchange format: a fresh identity, the old color (0xcccccc when absent
or when the material was an array), the old map texture (none for an array),
no other texture slots, roughness 0.6 and metalness 0.2. -/
def replacementMaterial (fresh : Nat) (mats : List Material) : Material :=
  { uuid := Sum.inr fresh
    color := some ((match mats with | [m] => m.color | _ => none).getD 0xcccccc)
    map := match mats with | [m] => m.map | _ => none
    normalMap := none
    roughnessMap := none
    metalnessMap := none
    emissiveMap := none
    roughness := 6 / 10
    metalness := 2 / 10 }

/-- Collect the texture identities of the five inspected texture slots of one
material into the texture-identity set. -/
def collectTextures (texIds : Finset Nat) (m : Material) : Finset Nat :=
  [m.map, m.normalMap, m.roughnessMap, m.metalnessMap, m.emissiveMap].foldl
    (fun s o => match o with | some t => insert t s | none => s) texIds

/-- The body of the traversal callback for one visited node, mirroring the
object.traverse block of processResult: count mesh/points instances, add the
position count to vertices and (for meshes only) its third to the triangle
sum, replace the material of meshes of non-interchange formats with a freshly
built standard material, then record material and texture identities. -/
def procVisit (ext : String) (st : MetaState) (n : VNode) : MetaState :=
  if n.kind = NodeKind.other then st
  else
    let st1 := { st with meshes := st.meshes + 1 }
    let st2 :=
      match n.geom.position with
      | some c =>
          { st1 with
            vertices := st1.vertices + c
            triangles :=
              if n.kind = NodeKind.mesh then st1.triangles + (c : ℚ) / 3 else st1.triangles }
      | none => st1
    let repl :=
      if isInterchange ext = false ∧ n.kind = NodeKind.mesh ∧ n.mats ≠ [] then
        ([replacementMaterial st2.fresh n.mats], { st2 with fresh := st2.fresh + 1 })
      else
        (n.mats, st2)
    if repl.1 = [] then repl.2
    else
      repl.1.foldl
        (fun s m =>
          { s with matIds := insert m.uuid s.matIds, texIds := collectTextures s.texIds m })
        repl.2

/-- The metadata object handed to onModelMetadata (the fields computed by the
traversal; triangles is Math.round of the accumulated sum). -/
structure ModelMetadata where
  vertices : Nat
  triangles : ℤ
  meshes : Nat
  materials : Nat
  textures : Nat
  deriving DecidableEq, Repr

/-- JavaScript Math.round on an exact rational: the floor of x + 1/2. -/
def jsRound (q : ℚ) : ℤ := ⌊q + 1 / 2⌋

/-- The accumulator values before the traversal starts. -/
def initMetaState : MetaState :=
  { vertices := 0, triangles := 0, meshes := 0, matIds := ∅, texIds := ∅, fresh := 0 }

/-- Run the metadata traversal of processResult over the visited nodes of a
SceneObject and build the reported metadata. -/
def extractMetadata (ext : String) (nodes : SceneNodes) : ModelMetadata :=
  let st := nodes.foldl (procVisit ext) initMetaState
  { vertices := st.vertices
    triangles := jsRound st.triangles
    meshes := st.meshes
    materials := st.matIds.card
    textures := st.texIds.card }

/-- The position count a node contributes to the triangle sum: its position
attribute count when it is a mesh exposing one, else zero. -/
def meshPositionCount (n : VNode) : Nat :=
  if n.kind = NodeKind.mesh then n.geom.position.getD 0 else 0

/-- Total position count over all mesh nodes exposing a position attribute. -/
def meshPositionTotal (nodes : SceneNodes) : Nat :=
  (nodes.map meshPositionCount).sum

/-- A material as a loader would hand it over: a loader-side identity and a
plain color, no textures. -/
def loaderMaterial (u : Nat) : Material :=
  { uuid := Sum.inl u
    color := some 0xff0000
    map := none
    normalMap := none
    roughnessMap := none
    metalnessMap := none
    emissiveMap := none
    roughness := 1 / 2
    metalness := 1 / 2 }

/-- A non-indexed mesh node carrying one material and a position attribute of
count c. -/
def meshNodeWith (m : Material) (c : Nat) : VNode :=
  { kind := NodeKind.mesh
    geom := { position := some c, index := none, hasColor := false }
    mats := [m]
    skinned := false }

/-- Two mesh nodes sharing one material instance. -/
def twoSharedScene (u : Nat) : SceneNodes :=
  [meshNodeWith (loaderMaterial u) 9, meshNodeWith (loaderMaterial u) 9]

/-- Two mesh nodes sharing one material instance plus a third node carrying a
distinct material. -/
def thirdDistinctScene (u v : Nat) : SceneNodes :=
  twoSharedScene u ++ [meshNodeWith (loaderMaterial v) 9]

/-- A single non-indexed mesh whose position attribute has 3000 elements. -/
def bigMesh3000 : VNode := meshNodeWith (loaderMaterial 0) 3000

/-- A single non-indexed mesh whose position attribute has 5 elements. -/
def smallMesh5 : VNode := meshNodeWith (loaderMaterial 0) 5

/-! ## Camera framing (frameCamera) -/

/-- The vertical-fit distance frameCamera computes: note the source divides by
2 * Math.atan((Math.PI * fov) / 360), i.e. by the arctangent of the half
field of view in radians. -/
noncomputable def fitHeightDistance (maxSize fov : ℝ) : ℝ :=
  maxSize / (2 * Real.arctan (Real.pi * fov / 360))

/-- The camera distance frameCamera computes: 1.2 times the larger of the
vertical-fit distance and the horizontal-fit distance (vertical over the
aspect ratio). -/
noncomputable def frameDistance (maxSize fov aspect : ℝ) : ℝ :=
  1.2 * max (fitHeightDistance maxSize fov) (fitHeightDistance maxSize fov / aspect)

/-- Modelled from the spec: the vertical-fit distance as the spec words it,
maxSize / (2 * tan(fov / 2)) with fov / 2 in radians. -/
noncomputable def specFitDistance (maxSize fov : ℝ) : ℝ :=
  maxSize / (2 * Real.tan (Real.pi * fov / 360))

/-- Modelled from the spec: the camera distance the spec describes, 1.2 times
the larger of the tangent-based vertical-fit distance and the horizontal-fit
distance derived from the aspect ratio. -/
noncomputable def specFrameDistance (maxSize fov aspect : ℝ) : ℝ :=
  1.2 * max (specFitDistance maxSize fov) (specFitDistance maxSize fov / aspect)

/-- The near clip plane frameCamera sets: distance / 1000. -/
noncomputable def frameNear (d : ℝ) : ℝ := d / 1000

/-- The far clip plane frameCamera sets: distance * 1000. -/
noncomputable def frameFar (d : ℝ) : ℝ := d * 1000

/-- The tangent of the half field of view, fov given in degrees. -/
noncomputable def halfFovTan (fov : ℝ) : ℝ := Real.tan (Real.pi * fov / 360)

/-- An axis-aligned box with extents sx, sy, sz, centered at the orbit target,
lies fully inside the view frustum of a camera placed at distance d from the
center along the view axis, with vertical field of view fov (degrees), aspect
ratio aspect and clip planes near / far: every corner is between the clip
planes and within the vertical and horizontal view angles at its depth. -/
def boxInFrustum (fov aspect near far d sx sy sz : ℝ) : Prop :=
  ∀ x y z : ℝ, |x| ≤ sx / 2 → |y| ≤ sy / 2 → |z| ≤ sz / 2 →
    near ≤ d - z ∧ d - z ≤ far ∧
    |y| ≤ (d - z) * halfFovTan fov ∧ |x| ≤ (d - z) * (aspect * halfFovTan fov)

/-! ## Export (exportModel) -/

/-- A rational 3-vector (componentwise addition and subtraction come from the
product group structure). -/
abbrev V3 : Type := ℚ × ℚ × ℚ

/-- Componentwise minimum of two vectors. -/
def vmin (a b : V3) : V3 := (min a.1 b.1, min a.2.1 b.2.1, min a.2.2 b.2.2)

/-- Componentwise maximum of two vectors. -/
def vmax (a b : V3) : V3 := (max a.1 b.1, max a.2.1 b.2.1, max a.2.2 b.2.2)

/-- An axis-aligned bounding box. -/
structure AABB where
  lo : V3
  hi : V3
  deriving DecidableEq, Repr

/-- Union of two boxes (componentwise min of lows, max of highs), as
Box3.union / expandByObject accumulate. -/
def AABB.union (a b : AABB) : AABB := ⟨vmin a.lo b.lo, vmax a.hi b.hi⟩

/-- Translate a box by a vector. -/
def AABB.translate (v : V3) (a : AABB) : AABB := ⟨a.lo + v, a.hi + v⟩

/-- The midpoint of a box, coordinate by coordinate. -/
def midpoint3 (a b : V3) : V3 := ((a.1 + b.1) / 2, (a.2.1 + b.2.1) / 2, (a.2.2 + b.2.2) / 2)

/-- One descendant node of a SceneObject, for export purposes: its accumulated
translation relative to the object's root, the bounding box of its own
geometry in node-local coordinates (none for geometry-less nodes), and the
identity of its material.  Node transforms are translations here, which is
what the recenter step of exportModel manipulates. -/
structure Part3D where
  offset : V3
  box : Option AABB
  materialId : Nat
  deriving DecidableEq, Repr

/-- A SceneObject as the export path sees it: the root node's position plus
the flattened list of its descendants. -/
structure SceneObject3D where
  rootPosition : V3
  parts : List Part3D
  deriving DecidableEq, Repr

/-- The world-space geometry boxes of an object, as Box3.setFromObject
collects them: each part's own box translated by the root position plus the
part's accumulated offset. -/
def worldBoxes (o : SceneObject3D) : List AABB :=
  o.parts.filterMap (fun p => p.box.map (AABB.translate (o.rootPosition + p.offset)))

/-- Union of a list of boxes; none for the empty list (an empty Box3). -/
def unionAll : List AABB → Option AABB
  | [] => none
  | b :: bs => some (bs.foldl AABB.union b)

/-- Box3.setFromObject on an object. -/
def computeBox (o : SceneObject3D) : Option AABB :=
  unionAll (worldBoxes o)

/-- Box3.getCenter: the midpoint, or the zero vector for an empty box. -/
def boxCenter : Option AABB → V3
  | none => 0
  | some b => midpoint3 b.lo b.hi

/-- The state exportModel leaves behind: the live, displayed SceneObject and
the object that was handed to the exporter. -/
structure ExportResult where
  live : SceneObject3D
  exported : SceneObject3D
  deriving DecidableEq, Repr

/-- The scene preparation of exportModel: clone the live object, compute the
clone's bounding box and its center, subtract the center from the clone's
root position, and hand the clone (inside a fresh scene container) to the
exporter.  All mutation happens on the clone. -/
def exportModel (live : SceneObject3D) : ExportResult :=
  let clone := live
  let box := computeBox clone
  let center := boxCenter box
  let clone2 := { clone with rootPosition := clone.rootPosition - center }
  { live := live, exported := clone2 }

/-- The export configuration (types.ts ExportConfig, format fixed to glb). -/
structure ExportConfig where
  draco : Bool
  ktx2 : Bool
  fileName : String
  deriving DecidableEq, Repr

/-- The serialization options exportModel passes to GLTFExporter.parse:
binary, the clip list, draw-range truncation, and Draco options exactly when
config.draco is set.  There is no field the ktx2 flag could reach. -/
structure GLTFExportOptions where
  binary : Bool
  animations : List Nat
  truncateDrawRange : Bool
  dracoOptions : Option Nat
  deriving DecidableEq, Repr

/-- Build the options object of exportModel from the retained clip list and
the export configuration. -/
def buildExportOptions (clips : List Nat) (c : ExportConfig) : GLTFExportOptions :=
  { binary := true
    animations := clips
    truncateDrawRange := true
    dracoOptions := if c.draco then some 7 else none }

/-- The JS replace of the download-name computation: strip a trailing
dot-extension (a final dot followed by one or more characters none of which
is a dot or a slash), as the regex of exportModel does. -/
def stripExtension (s : String) : String :=
  let rev := s.toList.reverse
  let seg := rev.takeWhile (fun c => c != '.' && c != '/')
  match rev.drop seg.length with
  | '.' :: rest => if seg.isEmpty then s else String.mk rest.reverse
  | _ => s

/-- The suffix appended to the download name: _draco and / or _ktx2 according
to the flags, _optimized when neither is set. -/
def exportSuffix (c : ExportConfig) : String :=
  let s := (if c.draco then "_draco" else "") ++ (if c.ktx2 then "_ktx2" else "")
  if s = "" then "_optimized" else s

/-- The download file name exportModel assembles. -/
def exportFileName (c : ExportConfig) : String :=
  stripExtension c.fileName ++ exportSuffix c ++ ".glb"

/-! ## Concurrent loads (the modelUrl effect) -/

/-- The externally visible load state: the installed SceneObject (identified
by a value), which load's metadata was last reported, and the loads initiated
so far in order. -/
structure LoaderState where
  model : Option Nat
  metadataOfLoad : Option Nat
  started : List Nat
  deriving DecidableEq, Repr

/-- Actions of overlapping loads: a load starts (the effect runs loadModel),
or a pending decode completes and its processResult runs.  The source's
processResult installs its result through setModel / onModelMetadata without
checking whether its load is still the current one, so a completion always
applies. -/
inductive LoadAction where
  | startLoad (reqId : Nat)
  | decodeComplete (reqId : Nat) (modelValue : Nat)
  deriving DecidableEq, Repr

/-- One step of the load state machine, as the source behaves. -/
def stepLoader (st : LoaderState) (a : LoadAction) : LoaderState :=
  match a with
  | LoadAction.startLoad r => { st with started := st.started ++ [r] }
  | LoadAction.decodeComplete r m =>
      { st with model := some m, metadataOfLoad := some r }

/-- Run a sequence of load actions. -/
def runLoader (st : LoaderState) : List LoadAction → LoaderState
  | [] => st
  | a :: rest => runLoader (stepLoader st a) rest

/-! ## Theorems settling the claims -/

/-- C6: a parsed ply geometry with no triangle-index buffer, or with an empty
one, is classified as a point cloud and wrapped in a Points node (point size,
vertex colors iff a color attribute is present, size attenuation on); one
with a non-empty index buffer is classified as a mesh and wrapped in a Mesh
node with the default standard material (color 0x808080, roughness 0.5,
metalness 0.5). -/
theorem C6_ply_classification (geom : Geometry) (pointSize : ℚ) :
    ((geom.index = none ∨ geom.index = some 0) →
      normalizeGeometry "ply" pointSize geom =
        NormalizedNode.pointsObj geom pointSize geom.hasColor true) ∧
    (∀ n : Nat, geom.index = some n → n ≠ 0 →
      normalizeGeometry "ply" pointSize geom =
        NormalizedNode.meshObj geom 0x808080 (1 / 2) (1 / 2)) := by
  constructor
  · intro h
    rcases h with h | h <;> simp [normalizeGeometry, plyHasEmptyIndex, h]
  · intro n hn hne
    simp [normalizeGeometry, plyHasEmptyIndex, hn, hne]

/-- Witness for C6 at concrete geometries: one with no index buffer becomes a
Points node, one with a 9-entry index buffer becomes a Mesh node. -/
theorem C6_ply_classification_witness :
    normalizeGeometry "ply" (1 / 10) ⟨some 30, none, true⟩ =
      NormalizedNode.pointsObj ⟨some 30, none, true⟩ (1 / 10) true true ∧
    normalizeGeometry "ply" (1 / 10) ⟨some 30, some 9, false⟩ =
      NormalizedNode.meshObj ⟨some 30, some 9, false⟩ 0x808080 (1 / 2) (1 / 2) :=
  ⟨(C6_ply_classification ⟨some 30, none, true⟩ (1 / 10)).1 (Or.inl rfl),
   (C6_ply_classification ⟨some 30, some 9, false⟩ (1 / 10)).2 9 rfl (by decide)⟩

/-- C7: switching the active animation index when there are no clips does
nothing; switching to an index with no corresponding clip (negative or past
the end) falls back to clip 0 — the first clip's action is faded in over 0.3
and played; and switching from 0 to 1 on a two-clip asset fades clip 0 out
over 0.3 and fades clip 1 in over 0.3. -/
theorem C7_animation_switch :
    (∀ (st : AnimState) (i : ℤ), st.clips = [] → switchAnimation st i = (st, [])) ∧
    (∀ (st : AnimState) (i : ℤ) (c0 : Nat), st.hasMixer = true →
      st.clips.head? = some c0 → (i < 0 ∨ (st.clips.length : ℤ) ≤ i) →
      (switchAnimation st i).1.active = some c0 ∧
      AnimEvent.fadeIn c0 (3 / 10) ∈ (switchAnimation st i).2 ∧
      AnimEvent.play c0 ∈ (switchAnimation st i).2) ∧
    (∀ c0 c1 : Nat,
      switchAnimation { hasMixer := true, clips := [c0, c1], active := some c0 } 1 =
        ({ hasMixer := true, clips := [c0, c1], active := some c1 },
         [AnimEvent.fadeOut c0 (3 / 10), AnimEvent.reset c1,
          AnimEvent.fadeIn c1 (3 / 10), AnimEvent.play c1])) := by
  refine ⟨?_, ?_, ?_⟩
  · intro st i h
    simp [switchAnimation, h]
  · intro st i c0 hm hh hi
    obtain ⟨tl, htl⟩ : ∃ tl, st.clips = c0 :: tl := by
      cases hcl : st.clips with
      | nil => rw [hcl] at hh; exact absurd hh (by simp)
      | cons a tl =>
          rw [hcl] at hh
          simp only [List.head?_cons, Option.some.injEq] at hh
          exact ⟨tl, by rw [hh]⟩
    have hne : st.clips ≠ [] := by rw [htl]; exact List.cons_ne_nil c0 tl
    have hidx : jsIndex st.clips i = none := by
      unfold jsIndex
      rcases hi with hi | hi
      · simp [hi]
      · have hlen : st.clips.length ≤ i.toNat := by omega
        rw [if_neg (by omega : ¬ i < 0)]
        exact List.get?_eq_none.mpr hlen
    have hidx0 : jsIndex st.clips 0 = some c0 := by
      unfold jsIndex
      rw [htl]
      rfl
    unfold switchAnimation
    rw [if_neg (by simp [hm, hne]), hidx, hidx0]
    cases st.active <;> simp
  · intro c0 c1
    simp [switchAnimation, jsIndex]

/-- Witness for C7 at concrete states: an empty clip list is a no-op; index 5
on a two-clip asset (clips 10 and 11) leaves clip 10 active and faded in; and
the 0-to-1 switch produces exactly the fade-out / fade-in event sequence. -/
theorem C7_animation_switch_witness :
    switchAnimation { hasMixer := true, clips := [], active := none } 5 =
      ({ hasMixer := true, clips := [], active := none }, []) ∧
    ((switchAnimation { hasMixer := true, clips := [10, 11], active := some 10 } 5).1.active =
        some 10 ∧
      AnimEvent.fadeIn 10 (3 / 10) ∈
        (switchAnimation { hasMixer := true, clips := [10, 11], active := some 10 } 5).2 ∧
      AnimEvent.play 10 ∈
        (switchAnimation { hasMixer := true, clips := [10, 11], active := some 10 } 5).2) ∧
    switchAnimation { hasMixer := true, clips := [10, 11], active := some 10 } 1 =
      ({ hasMixer := true, clips := [10, 11], active := some 11 },
       [AnimEvent.fadeOut 10 (3 / 10), AnimEvent.reset 11,
        AnimEvent.fadeIn 11 (3 / 10), AnimEvent.play 11]) :=
  ⟨C7_animation_switch.1 { hasMixer := true, clips := [], active := none } 5 rfl,
   C7_animation_switch.2.1 { hasMixer := true, clips := [10, 11], active := some 10 } 5 10
     rfl rfl (Or.inr (by decide)),
   C7_animation_switch.2.2 10 11⟩

/-- C9 evidence: the modelUrl effect has no is-this-still-current check, so a
stale decode that completes after a newer one still installs its model and
metadata; in the trace where load 0 starts, load 1 starts, load 1 completes
(model 101), then load 0 completes (model 100), the final installed model is
load 0's, although load 1 was the most recently initiated. -/
theorem C9_stale_result_applied :
    runLoader { model := none, metadataOfLoad := none, started := [] }
      [LoadAction.startLoad 0, LoadAction.startLoad 1,
       LoadAction.decodeComplete 1 101, LoadAction.decodeComplete 0 100] =
      { model := some 100, metadataOfLoad := some 0, started := [0, 1] } := rfl

/-- C3 fails as stated: for the unsupported extension stl the byte buffer IS
fetched before the unsupported-format error is reported — the fetch event
occurs among the events preceding the first error status, so the error is not
raised before I/O. -/
theorem C3_counterexample :
    LoadEvent.fetchBytes ∈ eventsBeforeError (loadModelTrace "stl" ParseOutcome.success) ∧
    LoadEvent.status "Error: Unsupported format: stl" ∈
      loadModelTrace "stl" ParseOutcome.success := by
  constructor <;> decide

/-- C3 amended: for every extension that does not lowercase into the supported
set, loadModel emits the fetching status, fetches the buffer, emits the
decoding status, and then reports the unsupported-format error — i.e. the
error is raised after the fetch but before any parse attempt, and no
SceneObject is ever installed. -/
theorem C3_unsupported_after_fetch (extension : String) (o : ParseOutcome)
    (h : toLowerStr extension ∉ supportedExtensions) :
    loadModelTrace extension o =
      [LoadEvent.status "Fetching data stream...", LoadEvent.fetchBytes,
       LoadEvent.status ("Decoding " ++ toUpperStr (toLowerStr extension) ++ " payloads..."),
       LoadEvent.status (handleErrorStatus (some ("Unsupported format: " ++ toLowerStr extension)))] ∧
    (∀ f, LoadEvent.parseAttempt f ∉ loadModelTrace extension o) ∧
    LoadEvent.installModel ∉ loadModelTrace extension o := by
  refine ⟨?_, ?_, ?_⟩
  · simp [loadModelTrace, h]
  · intro f
    simp [loadModelTrace, h]
  · simp [loadModelTrace, h]

/-- Witness for C3 amended at extension stl: the trace is exactly the four
events, fetched before the error, with no parse attempt and no install. -/
theorem C3_unsupported_after_fetch_witness :
    loadModelTrace "stl" ParseOutcome.success =
      [LoadEvent.status "Fetching data stream...", LoadEvent.fetchBytes,
       LoadEvent.status ("Decoding " ++ toUpperStr (toLowerStr "stl") ++ " payloads..."),
       LoadEvent.status (handleErrorStatus (some ("Unsupported format: " ++ toLowerStr "stl")))] ∧
    (∀ f, LoadEvent.parseAttempt f ∉ loadModelTrace "stl" ParseOutcome.success) ∧
    LoadEvent.installModel ∉ loadModelTrace "stl" ParseOutcome.success :=
  C3_unsupported_after_fetch "stl" ParseOutcome.success (by decide)

/-- C5 fails as stated: a parser error message is not surfaced verbatim — the
status sink receives it with the Error: prefix, so for the underlying message
boom the surfaced string differs from the message. -/
theorem C5_counterexample :
    handleErrorStatus (some "boom") = "Error: boom" ∧
    handleErrorStatus (some "boom") ≠ "boom" := by
  constructor <;> decide

/-- C5 amended: when the parser of a supported format fails with a non-empty
message m, the loader surfaces the message through the status sink prefixed
with Error: (and substitutes Parsing failed only for a missing or empty
message), and the load fails with no SceneObject installed: the trace ends
with the prefixed error status and contains no install event. -/
theorem C5_error_message_prefixed (extension : String) (m : String)
    (hsupp : toLowerStr extension ∈ supportedExtensions) (hm : m ≠ "") :
    loadModelTrace extension (ParseOutcome.failure (some m)) =
      [LoadEvent.status "Fetching data stream...", LoadEvent.fetchBytes,
       LoadEvent.status ("Decoding " ++ toUpperStr (toLowerStr extension) ++ " payloads..."),
       LoadEvent.parseAttempt (toLowerStr extension),
       LoadEvent.status ("Error: " ++ m)] ∧
    LoadEvent.installModel ∉ loadModelTrace extension (ParseOutcome.failure (some m)) := by
  constructor
  · simp [loadModelTrace, hsupp, handleErrorStatus, hm]
  · simp [loadModelTrace, hsupp]

/-- Witness for C5 amended: an obj parse failing with message boom ends with
status Error: boom and never installs a model. -/
theorem C5_error_message_prefixed_witness :
    loadModelTrace "obj" (ParseOutcome.failure (some "boom")) =
      [LoadEvent.status "Fetching data stream...", LoadEvent.fetchBytes,
       LoadEvent.status ("Decoding " ++ toUpperStr (toLowerStr "obj") ++ " payloads..."),
       LoadEvent.parseAttempt (toLowerStr "obj"),
       LoadEvent.status ("Error: " ++ "boom")] ∧
    LoadEvent.installModel ∉ loadModelTrace "obj" (ParseOutcome.failure (some "boom")) :=
  C5_error_message_prefixed "obj" "boom" (by decide) (by decide)

/-- C10: the serialization options handed to the exporter are identical
whether ktx2 is set or not — so any exporter function produces identical
bytes for the two configurations — and the ktx2 flag only adds the _ktx2
suffix to the output file name; the options object has no field requesting
texture compression at all (binary, animations, truncateDrawRange and the
draco-only dracoOptions are its only fields). -/
theorem C10_ktx2_no_effect_on_bytes (clips : List Nat) (c : ExportConfig)
    (encode : GLTFExportOptions → List Nat) :
    buildExportOptions clips { c with ktx2 := true } =
      buildExportOptions clips { c with ktx2 := false } ∧
    encode (buildExportOptions clips { c with ktx2 := true }) =
      encode (buildExportOptions clips { c with ktx2 := false }) ∧
    exportFileName { c with ktx2 := true } =
      stripExtension c.fileName ++ (if c.draco then "_draco_ktx2" else "_ktx2") ++ ".glb" ∧
    exportFileName { c with ktx2 := false } =
      stripExtension c.fileName ++ (if c.draco then "_draco" else "_optimized") ++ ".glb" := by
  refine ⟨rfl, rfl, ?_, ?_⟩ <;>
    cases hd : c.draco <;>
      simp [exportFileName, exportSuffix, stripExtension, hd]

/-- Recording material and texture identities does not change the running
triangle sum. -/
theorem foldl_record_triangles (st : MetaState) (l : List Material) :
    (l.foldl
      (fun s m =>
        { s with matIds := insert m.uuid s.matIds, texIds := collectTextures s.texIds m })
      st).triangles = st.triangles := by
  induction l generalizing st with
  | nil => rfl
  | cons m l ih => rw [List.foldl_cons, ih]

/-- One traversal step adds exactly a third of the node's mesh position count
to the running triangle sum. -/
theorem procVisit_triangles (ext : String) (st : MetaState) (n : VNode) :
    (procVisit ext st n).triangles = st.triangles + (meshPositionCount n : ℚ) / 3 := by
  unfold procVisit meshPositionCount
  by_cases hk : n.kind = NodeKind.other
  · simp [hk]
  · rw [if_neg hk]
    by_cases hm : n.kind = NodeKind.mesh
    · cases hp : n.geom.position with
      | none =>
          simp only [hp, hm]
          split
          · split <;> simp [foldl_record_triangles]
          · split <;> simp [foldl_record_triangles]
      | some c =>
          simp only [hp, hm, if_pos]
          split
          · split <;> simp [foldl_record_triangles]
          · split <;> simp [foldl_record_triangles]
    · cases hp : n.geom.position with
      | none =>
          simp only [hp, if_neg hm]
          split
          · split <;> simp [foldl_record_triangles]
          · split <;> simp [foldl_record_triangles]
      | some c =>
          simp only [hp, if_neg hm]
          split
          · split <;> simp [foldl_record_triangles]
          · split <;> simp [foldl_record_triangles]

/-- The traversal's final triangle sum is the initial sum plus a third of the
total mesh position count. -/
theorem foldl_procVisit_triangles (ext : String) (nodes : SceneNodes) (st : MetaState) :
    (nodes.foldl (procVisit ext) st).triangles =
      st.triangles + (meshPositionTotal nodes : ℚ) / 3 := by
  induction nodes generalizing st with
  | nil => simp [meshPositionTotal]
  | cons n l ih =>
      rw [List.foldl_cons, ih, procVisit_triangles]
      unfold meshPositionTotal
      push_cast [List.map_cons, List.sum_cons]
      ring

/-- C1 fails as stated: for a single non-indexed mesh whose position attribute
has 5 elements the reported triangle count is Math.round(5 / 3) = 2, while
the floor of the sum is 1 — the count is not the floor of the sum. -/
theorem C1_counterexample :
    (extractMetadata "obj" [smallMesh5]).triangles = 2 ∧
    ⌊(meshPositionTotal [smallMesh5] : ℚ) / 3⌋ = 1 ∧
    (extractMetadata "obj" [smallMesh5]).triangles ≠
      ⌊(meshPositionTotal [smallMesh5] : ℚ) / 3⌋ := by
  have htot : meshPositionTotal [smallMesh5] = 5 := by decide
  have h1 : (extractMetadata "obj" [smallMesh5]).triangles = 2 := by
    show jsRound (([smallMesh5].foldl (procVisit "obj") initMetaState).triangles) = 2
    rw [foldl_procVisit_triangles, htot]
    norm_num [initMetaState, jsRound, Int.floor_eq_iff]
  have h2 : ⌊(meshPositionTotal [smallMesh5] : ℚ) / 3⌋ = 1 := by
    rw [htot]
    norm_num [Int.floor_eq_iff]
  exact ⟨h1, h2, by rw [h1, h2]; decide⟩

/-- C1 amended: the triangle count reported in ModelMetadata is Math.round —
the nearest integer, halves up — of the sum, over every mesh node exposing a
position attribute, of that attribute's element count divided by 3, rounded
once at the end and not per node; a single mesh whose position attribute has
3000 elements and no index buffer still yields a triangle count of exactly
1000. -/
theorem C1_triangle_rounding :
    (∀ (ext : String) (nodes : SceneNodes),
      (extractMetadata ext nodes).triangles = jsRound ((meshPositionTotal nodes : ℚ) / 3)) ∧
    (extractMetadata "obj" [bigMesh3000]).triangles = 1000 := by
  have hgen : ∀ (ext : String) (nodes : SceneNodes),
      (extractMetadata ext nodes).triangles = jsRound ((meshPositionTotal nodes : ℚ) / 3) := by
    intro ext nodes
    show jsRound (nodes.foldl (procVisit ext) initMetaState).triangles = _
    rw [foldl_procVisit_triangles]
    norm_num [initMetaState]
  refine ⟨hgen, ?_⟩
  rw [hgen]
  have htot : meshPositionTotal [bigMesh3000] = 3000 := by decide
  rw [htot]
  norm_num [jsRound, Int.floor_eq_iff]

/-- Recording the uuid of each material in a list into the identity set, with
texture bookkeeping alongside, yields the union of the set with those uuids. -/
theorem foldl_record_matIds (st : MetaState) (l : List Material) :
    (l.foldl
      (fun s m =>
        { s with matIds := insert m.uuid s.matIds, texIds := collectTextures s.texIds m })
      st).matIds = l.foldl (fun s m => insert m.uuid s) st.matIds := by
  induction l generalizing st with
  | nil => rfl
  | cons m l ih => rw [List.foldl_cons, List.foldl_cons, ih]

/-- C2 fails as stated: for a non-interchange asset (obj) two mesh nodes
sharing one material instance contribute 2, not 1, to the material count,
because the traversal replaces each mesh's material with a freshly
constructed instance before recording identities. -/
theorem C2_counterexample :
    (extractMetadata "obj" (twoSharedScene 0)).materials = 2 ∧
    (extractMetadata "obj" (twoSharedScene 0)).materials ≠ 1 := by
  refine ⟨by decide, by decide⟩

/-- C2 amended: the material count de-duplicates by identity for interchange
assets (glb / gltf): two mesh nodes sharing one material instance contribute
1, and a third node carrying a distinct material brings the count to 2; for
non-interchange formats (obj / ply) each mesh node's material is replaced by
a fresh instance before counting, so two nodes sharing one instance
contribute 2. -/
theorem C2_material_identity (u v : Nat) (huv : u ≠ v) :
    (extractMetadata "glb" (twoSharedScene u)).materials = 1 ∧
    (extractMetadata "glb" (thirdDistinctScene u v)).materials = 2 ∧
    (extractMetadata "obj" (twoSharedScene u)).materials = 2 := by
  refine ⟨?_, ?_, ?_⟩
  · show (insert (Sum.inl u) (insert (Sum.inl u) (∅ : Finset (Nat ⊕ Nat)))).card = 1
    simp
  · show (insert (Sum.inl v)
      (insert (Sum.inl u) (insert (Sum.inl u) (∅ : Finset (Nat ⊕ Nat))))).card = 2
    rw [Finset.insert_idem]
    rw [Finset.card_insert_of_not_mem (by simp [Ne.symm huv])]
    simp
  · show (insert (Sum.inr 1) (insert (Sum.inr 0) (∅ : Finset (Nat ⊕ Nat)))).card = 2
    decide

/-- Witness for C2 amended at concrete distinct identities 0 and 1. -/
theorem C2_material_identity_witness :
    (extractMetadata "glb" (twoSharedScene 0)).materials = 1 ∧
    (extractMetadata "glb" (thirdDistinctScene 0 1)).materials = 2 ∧
    (extractMetadata "obj" (twoSharedScene 0)).materials = 2 :=
  C2_material_identity 0 1 (by decide)

/-- Componentwise minimum commutes with translation. -/
theorem vmin_add_right (a b c : V3) : vmin (a + c) (b + c) = vmin a b + c := by
  unfold vmin
  simp [Prod.ext_iff, min_add_add_right]

/-- Componentwise maximum commutes with translation. -/
theorem vmax_add_right (a b c : V3) : vmax (a + c) (b + c) = vmax a b + c := by
  unfold vmax
  simp [Prod.ext_iff, max_add_add_right]

/-- Box union commutes with translation. -/
theorem union_translate (c : V3) (a b : AABB) :
    AABB.union (AABB.translate c a) (AABB.translate c b) =
      AABB.translate c (AABB.union a b) := by
  unfold AABB.union AABB.translate
  simp [vmin_add_right, vmax_add_right]

/-- Folding union over translated boxes translates the folded box. -/
theorem foldl_union_translate (c : V3) (b : AABB) (l : List AABB) :
    (l.map (AABB.translate c)).foldl AABB.union (AABB.translate c b) =
      AABB.translate c (l.foldl AABB.union b) := by
  induction l generalizing b with
  | nil => rfl
  | cons a l ih => rw [List.map_cons, List.foldl_cons, List.foldl_cons, union_translate, ih]

/-- The union of a translated box list is the translated union. -/
theorem unionAll_translate (c : V3) (l : List AABB) :
    unionAll (l.map (AABB.translate c)) = (unionAll l).map (AABB.translate c) := by
  cases l with
  | nil => rfl
  | cons b l =>
      rw [List.map_cons]
      show some _ = some _
      rw [foldl_union_translate]

/-- Two translations compose additively. -/
theorem translate_translate (u v : V3) (a : AABB) :
    AABB.translate u (AABB.translate v a) = AABB.translate (v + u) a := by
  unfold AABB.translate
  simp [add_assoc]

/-- Shifting the root position by minus c shifts every world-space geometry
box by minus c. -/
theorem worldBoxes_shift (o : SceneObject3D) (c : V3) :
    worldBoxes { o with rootPosition := o.rootPosition - c } =
      (worldBoxes o).map (AABB.translate (-c)) := by
  unfold worldBoxes
  rw [List.map_filterMap]
  apply List.filterMap_congr
  intro p _
  simp only [Option.map_map]
  congr 1
  funext b
  show AABB.translate (o.rootPosition - c + p.offset) b =
    AABB.translate (-c) (AABB.translate (o.rootPosition + p.offset) b)
  rw [translate_translate]
  congr 1
  abel

/-- Shifting the root position by minus c shifts the computed bounding box by
minus c. -/
theorem computeBox_shift (o : SceneObject3D) (c : V3) :
    computeBox { o with rootPosition := o.rootPosition - c } =
      (computeBox o).map (AABB.translate (-c)) := by
  unfold computeBox
  rw [worldBoxes_shift, unionAll_translate]

/-- The center of a translated box is the translated center. -/
theorem boxCenter_translate (b : AABB) (c : V3) :
    boxCenter (some (AABB.translate c b)) = boxCenter (some b) + c := by
  show midpoint3 (b.lo + c) (b.hi + c) = midpoint3 b.lo b.hi + c
  unfold midpoint3
  simp only [Prod.ext_iff, Prod.fst_add, Prod.snd_add]
  refine ⟨by ring, by ring, by ring⟩

/-- C8: the export path never mutates the live SceneObject — after export the
live object is exactly what it was — and it operates on a clone whose nodes
and materials equal the live ones and whose root has been translated so that
the clone's bounding-box center sits at the origin. -/
theorem C8_export_preserves_live (o : SceneObject3D) :
    (exportModel o).live = o ∧
    (exportModel o).exported.parts = o.parts ∧
    (∀ b, computeBox o = some b →
      boxCenter (computeBox (exportModel o).exported) = 0) := by
  refine ⟨rfl, rfl, ?_⟩
  intro b hb
  show boxCenter
    (computeBox { o with rootPosition := o.rootPosition - boxCenter (computeBox o) }) = 0
  rw [computeBox_shift, hb]
  show boxCenter (some (AABB.translate (-boxCenter (some b)) b)) = 0
  rw [boxCenter_translate]
  abel

/-- A demonstration object: root at the origin, a single geometry part with
box corners (0,0,0) and (2,4,6). -/
def demoObject : SceneObject3D :=
  { rootPosition := (0, 0, 0)
    parts := [{ offset := (0, 0, 0), box := some ⟨(0, 0, 0), (2, 4, 6)⟩, materialId := 3 }] }

/-- Witness for C8 at the demonstration object: the live object survives
export unchanged and the exported clone is centered at the origin. -/
theorem C8_export_preserves_live_witness :
    (exportModel demoObject).live = demoObject ∧
    (exportModel demoObject).exported.parts = demoObject.parts ∧
    boxCenter (computeBox (exportModel demoObject).exported) = 0 :=
  ⟨(C8_export_preserves_live demoObject).1,
   (C8_export_preserves_live demoObject).2.1,
   (C8_export_preserves_live demoObject).2.2 ⟨(0, 0, 0), (2, 4, 6)⟩
     (by simp [computeBox, worldBoxes, unionAll, demoObject, AABB.translate])⟩

/-- The half angle of a 45-degree field of view lies strictly between 0 and
90 degrees in radians. -/
theorem pi8_bounds : (0:ℝ) < Real.pi / 8 ∧ Real.pi / 8 < Real.pi / 2 := by
  have h := Real.pi_pos
  constructor <;> linarith

/-- The tangent exceeds its argument at the 22.5-degree angle. -/
theorem lt_tan_pi8 : Real.pi / 8 < Real.tan (Real.pi / 8) :=
  Real.lt_tan pi8_bounds.1 pi8_bounds.2

/-- The arctangent is below its argument at the 22.5-degree angle. -/
theorem arctan_pi8_lt : Real.arctan (Real.pi / 8) < Real.pi / 8 := by
  have h := Real.arctan_strictMono lt_tan_pi8
  rwa [Real.arctan_tan (by linarith [pi8_bounds.1]) pi8_bounds.2] at h

/-- The arctangent of the 22.5-degree angle is positive. -/
theorem arctan_pi8_pos : 0 < Real.arctan (Real.pi / 8) := by
  have h := Real.arctan_strictMono pi8_bounds.1
  rwa [Real.arctan_zero] at h

/-- Degree-to-radian conversion of the 22.5-degree half angle. -/
theorem angle45_eq : Real.pi * 45 / 360 = Real.pi / 8 := by ring

/-- The camera distance frameCamera computes for maxSize 2, a 45-degree field
of view and aspect ratio 1. -/
theorem frameDistance_val :
    frameDistance 2 45 1 = 1.2 / Real.arctan (Real.pi / 8) := by
  unfold frameDistance fitHeightDistance
  rw [angle45_eq, div_one, max_self]
  have h : Real.arctan (Real.pi / 8) ≠ 0 := ne_of_gt arctan_pi8_pos
  field_simp
  ring

/-- The distance the spec formula yields for the same configuration. -/
theorem specFrameDistance_val :
    specFrameDistance 2 45 1 = 1.2 / Real.tan (Real.pi / 8) := by
  unfold specFrameDistance specFitDistance
  rw [angle45_eq, div_one, max_self]
  have h : Real.tan (Real.pi / 8) ≠ 0 :=
    ne_of_gt (lt_trans pi8_bounds.1 lt_tan_pi8)
  field_simp
  ring

/-- The tangent-based distance is strictly below the atan-based one. -/
theorem specLt_frameDistance : specFrameDistance 2 45 1 < frameDistance 2 45 1 := by
  rw [frameDistance_val, specFrameDistance_val]
  exact div_lt_div_of_pos_left (by norm_num) arctan_pi8_pos
    (lt_trans arctan_pi8_lt lt_tan_pi8)

/-- C4 fails as stated: the camera distance frameCamera produces for extents
(2,1,1) — maxSize 2 — with a 45-degree field of view and aspect ratio 1 does
not match the spec formula 1.2 * max(maxSize / (2*tan(fov/2)), horizontal):
the source divides by Math.atan of the half angle instead of its tangent, and
since atan(pi/8) < tan(pi/8) the code distance is strictly larger. -/
theorem C4_counterexample : specFrameDistance 2 45 1 ≠ frameDistance 2 45 1 :=
  ne_of_lt specLt_frameDistance

/-- C4 amended: frameCamera places the camera at 1.2 times the larger of
maxSize / (2*atan(pi*fov/360)) — atan, not tan — and that value divided by
the aspect ratio; for extents (2,1,1), a 45-degree field of view and aspect
ratio 1 this distance strictly exceeds the tangent-based distance of the spec
formula, and the bounding box still lies fully inside the view frustum with
the near and far planes distance/1000 and distance*1000. -/
theorem C4_atan_framing :
    specFrameDistance 2 45 1 < frameDistance 2 45 1 ∧
    boxInFrustum 45 1 (frameNear (frameDistance 2 45 1)) (frameFar (frameDistance 2 45 1))
      (frameDistance 2 45 1) 2 1 1 := by
  have ha_pos := arctan_pi8_pos
  have ha_lt := arctan_pi8_lt
  have ht_gt := lt_tan_pi8
  have ht_pos : (0:ℝ) < Real.tan (Real.pi / 8) := lt_trans pi8_bounds.1 ht_gt
  have hpi_pos := Real.pi_pos
  have hpi_lt : Real.pi < 3.15 := Real.pi_lt_d2
  have hd_lb : 9.6 / Real.pi < 1.2 / Real.arctan (Real.pi / 8) := by
    have h1 : (1.2:ℝ) / (Real.pi / 8) = 9.6 / Real.pi := by
      field_simp
      ring
    rw [← h1]
    exact div_lt_div_of_pos_left (by norm_num) ha_pos ha_lt
  have h96 : (3:ℝ) < 9.6 / Real.pi := by
    rw [lt_div_iff₀ hpi_pos]
    nlinarith
  have hd3 : (3:ℝ) < 1.2 / Real.arctan (Real.pi / 8) := lt_trans h96 hd_lb
  have hkey : (1:ℝ) <
      (1.2 / Real.arctan (Real.pi / 8) - 1/2) * Real.tan (Real.pi / 8) := by
    have hAB : (9.6 / Real.pi - 1/2) * (Real.pi / 8) <
        (1.2 / Real.arctan (Real.pi / 8) - 1/2) * Real.tan (Real.pi / 8) :=
      mul_lt_mul'' (by linarith) ht_gt (by linarith) (by linarith)
    have hval : (9.6 / Real.pi - 1/2) * (Real.pi / 8) = 1.2 - Real.pi / 16 := by
      field_simp
      ring
    rw [hval] at hAB
    linarith
  refine ⟨specLt_frameDistance, ?_⟩
  intro x y z hx hy hz
  rw [frameDistance_val]
  unfold frameNear frameFar
  have hhalf : halfFovTan 45 = Real.tan (Real.pi / 8) := by
    unfold halfFovTan
    rw [angle45_eq]
  rw [hhalf]
  norm_num at hx hy hz
  have hzb := abs_le.mp hz
  have hxb := abs_le.mp hx
  have hyb := abs_le.mp hy
  have hmono : (1.2 / Real.arctan (Real.pi / 8) - 1/2) * Real.tan (Real.pi / 8) ≤
      (1.2 / Real.arctan (Real.pi / 8) - z) * Real.tan (Real.pi / 8) :=
    mul_le_mul_of_nonneg_right (by linarith [hzb.1, hzb.2]) (le_of_lt ht_pos)
  refine ⟨by linarith [hzb.2], by linarith [hzb.1], ?_, ?_⟩
  · have : |y| ≤ 1/2 := hy
    linarith
  · rw [one_mul]
    have : |x| ≤ 1 := hx
    linarith

end PolyPress
